import Mathlib

/-!
Shallow embedding of `src/kara-felhun.py` (Watermelon Auto Tapper).

The Python program is a single class `AutoTapper` plus a `main` entry point.
We embed its state as a Lean structure and each method as a pure function,
threading the mutable object state explicitly.  Randomness
(`random.randint`, `random.random`, `random.uniform`, `random.shuffle`) and
the transcendental float functions (`math.cos`, `math.sin`) are passed in as
explicit parameters: a theorem quantifies over them, a witness instantiates
them.  Machine floats are modelled as exact rationals; `adb` subprocess calls
are modelled by their observable result (resolution query result, per-tap
success flag, device-connected flag).  `sys.exit(1)` is modelled as
`Except.error 1`.
-/

namespace KaraFelhun

/-- Python floor division `a // b` on integers. -/
def pyDiv (a b : ℤ) : ℤ := Int.fdiv a b

/-- Python `int(q)` on a (rational-modelled) float: truncation toward zero. -/
def pyInt (q : ℚ) : ℤ := Int.tdiv q.num (q.den : ℤ)

/-- Floor of a rational, computed on the reduced fraction (the denominator is
positive, so flooring the fraction is floor division of numerator by
denominator). -/
def ratFloor (q : ℚ) : ℤ := Int.fdiv q.num (q.den : ℤ)

/-- Python float floor division `a // b` (result is an integral float). -/
def pyFloorDiv (a b : ℚ) : ℚ := (ratFloor (a / b) : ℤ)

/-- Python float modulo `a % b` for the cases used here. -/
def pyMod (a b : ℚ) : ℚ := a - b * pyFloorDiv a b

/-- Fuel-driven unfolding of `range (start, stop, step)`; fuel bounds the
number of emitted elements. -/
def rangeStepAux : ℕ → ℕ → ℕ → ℕ → List ℕ
  | 0, _, _, _ => []
  | fuel + 1, start, stop, step =>
    if start < stop then start :: rangeStepAux fuel (start + step) stop step
    else []

/-- Python `range(start, stop, step)` for a positive step (the program only
uses steps 45, 30 and 22).  `stop - start` elements of fuel suffice because
every emitted element advances `start` by `step ≥ 1`. -/
def rangeStep (start stop step : ℕ) : List ℕ :=
  if step = 0 then [] else rangeStepAux (stop - start) start stop step

/-- One planned tap location: the tuples `(x, y, rate)` stored in
`self.tap_locations`.  `rate` is the pacing interval in seconds. -/
structure TapPoint where
  x : ℤ
  y : ℤ
  rate : ℚ
deriving DecidableEq

/-- The random/transcendental environment of plan generation:
`cosd a` and `sind a` stand for the float values `math.cos(math.radians(a))`
and `math.sin(math.radians(a))` at the integer angle `a` (degrees); `infill i`
packs, for the i-th random infill point, the `random.random()` sample and the
cosine/sine of its `random.uniform(0, 2*pi)` angle; `shuffle` is the
permutation realized by `random.shuffle`. -/
structure Rng where
  cosd : ℕ → ℚ
  sind : ℕ → ℚ
  infill : Fin 4 → ℚ × ℚ × ℚ
  shuffle : List TapPoint → List TapPoint

/-- `AutoTapper.generate_tap_locations` (src lines 108-165), before the final
`random.shuffle`: center point, inner ring every 45 degrees at 40% radius,
middle ring every 30 degrees at 70% radius, outer ring every 22 degrees at
full radius, 4 strategic cardinal points at 85% radius, 4 random infill
points at a sampled radius in [10%, 90%]. -/
def tap_locations_before_shuffle (rng : Rng) (screen_width screen_height : ℤ) :
    List TapPoint :=
  let center_x := pyDiv screen_width 2
  let center_y := pyInt ((screen_height : ℚ) * (6/10))
  let radius := pyInt ((screen_height : ℚ) * (2/10))
  let centerPt : List TapPoint := [⟨center_x, center_y, 55/10000⟩]
  let inner_radius : ℚ := (radius : ℚ) * (4/10)
  let inner := (rangeStep 0 360 45).map fun angle =>
    (⟨center_x + pyInt (inner_radius * rng.cosd angle),
      center_y + pyInt (inner_radius * rng.sind angle), 6/1000⟩ : TapPoint)
  let middle_radius : ℚ := (radius : ℚ) * (7/10)
  let middle := (rangeStep 0 360 30).map fun angle =>
    (⟨center_x + pyInt (middle_radius * rng.cosd angle),
      center_y + pyInt (middle_radius * rng.sind angle), 7/1000⟩ : TapPoint)
  let outer := (rangeStep 0 360 22).map fun angle =>
    (⟨center_x + pyInt ((radius : ℚ) * rng.cosd angle),
      center_y + pyInt ((radius : ℚ) * rng.sind angle), 8/1000⟩ : TapPoint)
  let strategic_radius : ℚ := (radius : ℚ) * (85/100)
  let strategic := ([0, 90, 180, 270] : List ℕ).map fun angle =>
    (⟨center_x + pyInt (strategic_radius * rng.cosd angle),
      center_y + pyInt (strategic_radius * rng.sind angle), 65/10000⟩ : TapPoint)
  let infillPts := (List.finRange 4).map fun i =>
    let random_radius : ℚ := (radius : ℚ) * (1/10 + 8/10 * (rng.infill i).1)
    (⟨center_x + pyInt (random_radius * (rng.infill i).2.1),
      center_y + pyInt (random_radius * (rng.infill i).2.2), 7/1000⟩ : TapPoint)
  centerPt ++ inner ++ middle ++ outer ++ strategic ++ infillPts

/-- `AutoTapper.generate_tap_locations` including the final shuffle. -/
def generate_tap_locations (rng : Rng) (screen_width screen_height : ℤ) :
    List TapPoint :=
  rng.shuffle (tap_locations_before_shuffle rng screen_width screen_height)

/-- The fixed cross/diagonal layout built at src lines 81-91 when
`get_screen_resolution` overrides the ring plan: center, N/E/S/W at full
radius, four diagonals at `int(radius * 0.7)`. -/
def nine_point_layout (base_x base_y radius : ℤ) : List TapPoint :=
  let d := pyInt ((radius : ℚ) * (7/10))
  [⟨base_x, base_y, 8/1000⟩,
   ⟨base_x, base_y - radius, 9/1000⟩,
   ⟨base_x + radius, base_y, 8/1000⟩,
   ⟨base_x, base_y + radius, 9/1000⟩,
   ⟨base_x - radius, base_y, 8/1000⟩,
   ⟨base_x + d, base_y + d, 7/1000⟩,
   ⟨base_x + d, base_y - d, 7/1000⟩,
   ⟨base_x - d, base_y + d, 7/1000⟩,
   ⟨base_x - d, base_y - d, 7/1000⟩]

/-- The `AutoTapper` object state after `__init__`. -/
structure TapperState where
  x : ℤ
  y : ℤ
  tap_interval : ℚ
  jitter : ℤ
  multi_tap : Bool
  total_taps : Option ℕ
  running : Bool
  tap_count : ℕ
  tap_locations : List TapPoint
  current_location_index : ℕ
  screen_width : ℤ
  screen_height : ℤ
deriving DecidableEq

/-- `AutoTapper.__init__` (src lines 18-46) together with
`get_screen_resolution` (src lines 48-102), which it calls exactly when `x`
or `y` was not supplied.  `res` is the outcome of the `adb shell wm size`
query (`none` models the subprocess failing, which the source answers with
`sys.exit(1)`, modelled as `Except.error 1`).  Inside
`get_screen_resolution`: missing coordinates default to `width // 2` and
`height // 2`; in multi-tap mode the ring plan is generated and then — since
both coordinates are necessarily set by that point — unconditionally replaced
by the nine-point layout around `(self.x, self.y)` whenever it is non-empty. -/
def initTapper (x0 y0 : Option ℤ) (tap_interval : ℚ) (jitter : ℤ)
    (multi_tap : Bool) (total_taps : Option ℕ) (rng : Rng)
    (res : Option (ℤ × ℤ)) : Except ℕ TapperState :=
  if x0.isNone || y0.isNone then
    match res with
    | none => .error 1
    | some (w, h) =>
      let x := x0.getD (pyDiv w 2)
      let y := y0.getD (pyDiv h 2)
      let locs := if multi_tap = true then generate_tap_locations rng w h else []
      let locs :=
        if multi_tap = true ∧ locs ≠ [] then
          nine_point_layout x y (pyInt ((h : ℚ) * (2/10)))
        else locs
      .ok { x := x, y := y, tap_interval := tap_interval, jitter := jitter,
            multi_tap := multi_tap, total_taps := total_taps, running := false,
            tap_count := 0, tap_locations := locs, current_location_index := 0,
            screen_width := w, screen_height := h }
  else
    .ok { x := x0.getD 0, y := y0.getD 0, tap_interval := tap_interval,
          jitter := jitter, multi_tap := multi_tap, total_taps := total_taps,
          running := false, tap_count := 0, tap_locations := [],
          current_location_index := 0, screen_width := 0, screen_height := 0 }

/-- `AutoTapper.get_next_tap_location` (src lines 170-179): in single-point
mode, or with an empty plan, return the fixed coordinate and base interval and
leave the state untouched; otherwise return the plan entry at the cursor and
advance the cursor modulo the plan length. -/
def get_next_tap_location (st : TapperState) : (ℤ × ℤ × ℚ) × TapperState :=
  if st.multi_tap = false ∨ st.tap_locations = [] then
    ((st.x, st.y, st.tap_interval), st)
  else
    let location := st.tap_locations.getD st.current_location_index ⟨0, 0, 0⟩
    ((location.x, location.y, location.rate),
     { st with current_location_index :=
        (st.current_location_index + 1) % st.tap_locations.length })

/-- `AutoTapper.add_jitter` (src lines 104-106); `sample` is the value drawn
by `random.randint(-self.jitter, self.jitter)`, so theorems constrain it to
that interval. -/
def add_jitter (coord sample : ℤ) : ℤ := coord + sample

/-- `AutoTapper.send_tap` (src lines 181-205): fetch the next location (this
advances the plan cursor), jitter both axes with fresh independent samples
`dx`, `dy`, attempt the tap, and increment `tap_count` only when the `adb`
invocation succeeds (on `CalledProcessError` the increment is skipped).
Returns the fetched base point, the dispatched jittered coordinates, and the
new state; the `display_stats` call every 200 taps prints only. -/
def send_tap (dx dy : ℤ) (success : Bool) (st : TapperState) :
    (ℤ × ℤ × ℚ) × (ℤ × ℤ) × TapperState :=
  let r := get_next_tap_location st
  let base := r.1
  let st1 := r.2
  let x := add_jitter base.1 dx
  let y := add_jitter base.2.1 dy
  let st2 :=
    if success = true then { st1 with tap_count := st1.tap_count + 1 } else st1
  (base, (x, y), st2)

/-- One iteration of the `while` loop body of `AutoTapper.start`
(src lines 282-293): in multi-tap mode, `get_next_tap_location` is called to
obtain `current_interval` (advancing the cursor), then `send_tap` is called
(which fetches and advances again), then the loop sleeps `current_interval`.
Returns the slept interval, the base point actually tapped by `send_tap`, the
dispatched coordinates, and the new state. -/
def dispatch_cycle (dx dy : ℤ) (success : Bool) (st : TapperState) :
    ℚ × (ℤ × ℤ × ℚ) × (ℤ × ℤ) × TapperState :=
  let intSt :=
    if st.multi_tap = true then
      let r := get_next_tap_location st
      (r.1.2.2, r.2)
    else (st.tap_interval, st)
  let r2 := send_tap dx dy success intSt.2
  (intSt.1, r2.1, r2.2.1, r2.2.2)

/-- The goal test at src line 296, `if self.total_taps and self.tap_count >=
self.total_taps`, including the Python truthiness of `self.total_taps`
(`None` and `0` are both falsy). -/
def goal_reached (st : TapperState) : Bool :=
  match st.total_taps with
  | some g => decide (g ≠ 0) && decide (g ≤ st.tap_count)
  | none => false

/-- How a run of the `start` loop ended. -/
inductive StopReason where
  | goalReached
  | fuelExhausted
deriving DecidableEq

/-- The `while` loop of `AutoTapper.start` (src lines 282-303) with no
duration configured, driven by a per-cycle success stream and jitter-sample
stream indexed by `k`, and bounded by `fuel` iterations.  Each iteration runs
the loop body (which advances the cursor once in `start` and once inside
`send_tap`) and then breaks when the goal test holds.  Returns the final
state, the number of cycles executed, and how the loop stopped.  The
`time.sleep` pacing has no effect on the state. -/
def start_loop (success : ℕ → Bool) (jit : ℕ → ℤ × ℤ) :
    ℕ → ℕ → TapperState → TapperState × ℕ × StopReason
  | 0, _, st => (st, 0, .fuelExhausted)
  | fuel + 1, k, st =>
    let st1 := if st.multi_tap = true then (get_next_tap_location st).2 else st
    let st2 := (send_tap (jit k).1 (jit k).2 (success k) st1).2.2
    if goal_reached st2 = true then (st2, 1, .goalReached)
    else
      let r := start_loop success jit fuel (k + 1) st2
      (r.1, r.2.1 + 1, r.2.2)

/-- The completion percentage computed in the finalization block of
`AutoTapper.start` (src lines 314-316). -/
def completion_percentage (st : TapperState) : ℚ :=
  match st.total_taps with
  | some g => ((st.tap_count : ℚ) / (g : ℚ)) * 100
  | none => 0

/-- Observable outcome of `AutoTapper.start` (src lines 259-318):
`summary_printed` records whether the finalization summary block ran, and
`exit_code` the process exit status on that path (`start` itself never calls
`sys.exit`; a failed device check just returns). -/
structure StartOutcome where
  finalState : TapperState
  cycles : ℕ
  summary_printed : Bool
  exit_code : ℕ
deriving DecidableEq

/-- `AutoTapper.start`: if `check_adb_connection` reports no device the
method returns at once — before resetting counters, before the loop and
before the summary — and the process then ends normally.  Otherwise the
counters are reset and the loop runs, followed by the summary. -/
def start (connected : Bool) (success : ℕ → Bool) (jit : ℕ → ℤ × ℤ)
    (fuel : ℕ) (st : TapperState) : StartOutcome :=
  if connected = false then
    { finalState := st, cycles := 0, summary_printed := false, exit_code := 0 }
  else
    let st1 := { st with running := true, tap_count := 0 }
    let r := start_loop success jit fuel 0 st1
    { finalState := r.1, cycles := r.2.1, summary_printed := true,
      exit_code := 0 }

/-- Python truthiness of an optional integer argument: `not args.x` holds when
the argument is absent or zero. -/
def optionFalsy (o : Option ℤ) : Bool :=
  match o with
  | none => true
  | some v => v == 0

/-- The coordinate resolution in `main` (src lines 337-357): with the
(default-on) `karaa` flag and no truthy explicit `x`/`y`, query the
resolution and use the calibrated center `(width // 2, int(height * 0.6))`;
if the query fails the exception is caught and the arguments are kept. -/
def main_coords (res : Option (ℤ × ℤ)) (argx argy : Option ℤ) (karaa : Bool) :
    Option ℤ × Option ℤ :=
  if karaa = true ∧ optionFalsy argx = true ∧ optionFalsy argy = true then
    match res with
    | some (w, h) => (some (pyDiv w 2), some (pyInt ((h : ℚ) * (6/10))))
    | none => (argx, argy)
  else (argx, argy)

/-- The state transformer of one `get_next_tap_location` call, used to state
cursor-cycling facts. -/
def advance_state (st : TapperState) : TapperState :=
  (get_next_tap_location st).2

/-- The time-remaining formatting of `AutoTapper.display_stats`
(src lines 222-234), on the float `seconds_remaining` modelled as a rational:
three buckets chosen by strict comparisons against 86400 and 3600, each
formatted with Python float floor division and modulo, printed through
`int(...)`. -/
def format_time_remaining (seconds_remaining : ℚ) : String :=
  if 86400 < seconds_remaining then
    let days := pyFloorDiv seconds_remaining 86400
    let hours := pyFloorDiv (pyMod seconds_remaining 86400) 3600
    s!"{pyInt days}d {pyInt hours}h"
  else if 3600 < seconds_remaining then
    let hours := pyFloorDiv seconds_remaining 3600
    let minutes := pyFloorDiv (pyMod seconds_remaining 3600) 60
    s!"{pyInt hours}h {pyInt minutes}m"
  else
    let minutes := pyFloorDiv seconds_remaining 60
    let seconds := pyMod seconds_remaining 60
    s!"{pyInt minutes}m {pyInt seconds}s"

/-- A concrete random environment for witnesses and counterexamples: zero
trig values, zero infill samples, identity shuffle. -/
def rng0 : Rng where
  cosd := fun _ => 0
  sind := fun _ => 0
  infill := fun _ => (0, 0, 0)
  shuffle := id

/-- A concrete single-point-mode state as built by
`AutoTapper(x=540, y=1200, multi_tap=False, total_taps=50)` after `start`
reset the counters. -/
def stSingle : TapperState where
  x := 540
  y := 1200
  tap_interval := 8/1000
  jitter := 8
  multi_tap := false
  total_taps := some 50
  running := true
  tap_count := 0
  tap_locations := []
  current_location_index := 0
  screen_width := 1080
  screen_height := 2400

/-- A concrete multi-point state as left by
`AutoTapper(multi_tap=True)` on a 1080x2400 device (its plan is the
nine-point layout), with the cursor advanced to 3. -/
def stNine : TapperState where
  x := 540
  y := 1200
  tap_interval := 8/1000
  jitter := 8
  multi_tap := true
  total_taps := none
  running := true
  tap_count := 0
  tap_locations := nine_point_layout 540 1200 480
  current_location_index := 3
  screen_width := 1080
  screen_height := 2400

/-! ### Helper lemmas -/

lemma get_next_tap_location_tap_count (st : TapperState) :
    (get_next_tap_location st).2.tap_count = st.tap_count := by
  unfold get_next_tap_location; split <;> rfl

lemma get_next_tap_location_total_taps (st : TapperState) :
    (get_next_tap_location st).2.total_taps = st.total_taps := by
  unfold get_next_tap_location; split <;> rfl

lemma get_next_tap_location_multi_tap (st : TapperState) :
    (get_next_tap_location st).2.multi_tap = st.multi_tap := by
  unfold get_next_tap_location; split <;> rfl

lemma send_tap_tap_count_true (dx dy : ℤ) (st : TapperState) :
    (send_tap dx dy true st).2.2.tap_count = st.tap_count + 1 := by
  unfold send_tap
  simp [get_next_tap_location_tap_count]

lemma send_tap_tap_count_false (dx dy : ℤ) (st : TapperState) :
    (send_tap dx dy false st).2.2.tap_count = st.tap_count := by
  unfold send_tap
  simp [get_next_tap_location_tap_count]

lemma send_tap_total_taps (dx dy : ℤ) (success : Bool) (st : TapperState) :
    (send_tap dx dy success st).2.2.total_taps = st.total_taps := by
  unfold send_tap
  by_cases h : success = true <;> simp [h, get_next_tap_location_total_taps]

lemma tap_locations_before_shuffle_length (rng : Rng) (w h : ℤ) :
    (tap_locations_before_shuffle rng w h).length = 46 := by
  simp only [tap_locations_before_shuffle, List.length_append, List.length_map,
    List.length_cons, List.length_nil, List.length_finRange]
  norm_num [show (rangeStep 0 360 45).length = 8 from by decide,
    show (rangeStep 0 360 30).length = 12 from by decide,
    show (rangeStep 0 360 22).length = 17 from by decide]

lemma generate_tap_locations_ne_nil (rng : Rng) (w h : ℤ)
    (hs : ∀ l, (rng.shuffle l).length = l.length) :
    generate_tap_locations rng w h ≠ [] := by
  intro hnil
  have hlen := hs (tap_locations_before_shuffle rng w h)
  rw [generate_tap_locations] at hnil
  rw [hnil, tap_locations_before_shuffle_length] at hlen
  simp at hlen

/-! ### Claim theorems -/

/-- C2, counterexample: in the single-point state `stSingle` a failed tap
invocation leaves `tap_count` unchanged at 0, so it does not increase by 1
per attempt regardless of success. -/
theorem failed_tap_not_counted_cex :
    (send_tap 0 0 false stSingle).2.2.tap_count = 0 ∧
    (send_tap 0 0 false stSingle).2.2.tap_count ≠ stSingle.tap_count + 1 := by
  decide

/-- C2, amended: on every dispatch, `tap_count` increases by exactly 1 when
the external tap invocation succeeds, and is unchanged when it fails (the
increment sits after the subprocess call inside the `try` block, so a
`CalledProcessError` skips it). -/
theorem tap_count_increment_policy (dx dy : ℤ) (st : TapperState) :
    (send_tap dx dy true st).2.2.tap_count = st.tap_count + 1 ∧
    (send_tap dx dy false st).2.2.tap_count = st.tap_count :=
  ⟨send_tap_tap_count_true dx dy st, send_tap_tap_count_false dx dy st⟩

/-- C3, counterexample: for the concrete well-formed input of a 1080x2400
screen (radius 480 ≥ 0), the pre-shuffle ring plan has 46 points, not 45,
because `range(0, 360, 22)` yields 17 outer-ring angles, not 16. -/
theorem plan_size_not_45_cex :
    (tap_locations_before_shuffle rng0 1080 2400).length = 46 ∧
    (tap_locations_before_shuffle rng0 1080 2400).length ≠ 45 ∧
    (rangeStep 0 360 22).length = 17 ∧
    (rangeStep 0 360 22).length ≠ 16 := by
  decide

/-- C3, amended: for every center and radius (derived from any screen size)
the ring-based plan construction yields, before shuffling, a non-empty plan
of exactly 46 points: 1 center point, 8 inner-ring points (every 45°),
12 middle-ring points (every 30°), 17 outer-ring points (every 22°, since
`range(0, 360, 22)` has ceil(360/22) = 17 elements), 4 strategic cardinal
points and 4 random infill points. -/
theorem plan_size_is_46 (rng : Rng) (w h : ℤ) :
    (tap_locations_before_shuffle rng w h).length = 46 ∧
    (rangeStep 0 360 45).length = 8 ∧
    (rangeStep 0 360 30).length = 12 ∧
    (rangeStep 0 360 22).length = 17 ∧
    tap_locations_before_shuffle rng w h ≠ [] := by
  refine ⟨tap_locations_before_shuffle_length rng w h, by decide, by decide,
    by decide, ?_⟩
  intro hnil
  have hlen := tap_locations_before_shuffle_length rng w h
  rw [hnil] at hlen
  simp at hlen

/-- C7: the jittered coordinate dispatched by `send_tap` always lies within
the inclusive interval `[coord - jitter, coord + jitter]` around the selected
base coordinate, for each axis independently, whenever the per-axis samples
are in the `randint(-jitter, jitter)` range. -/
theorem jitter_within_bounds (st : TapperState) (dx dy : ℤ) (success : Bool)
    (hx1 : -st.jitter ≤ dx) (hx2 : dx ≤ st.jitter)
    (hy1 : -st.jitter ≤ dy) (hy2 : dy ≤ st.jitter) :
    (send_tap dx dy success st).1.1 - st.jitter ≤
        (send_tap dx dy success st).2.1.1 ∧
    (send_tap dx dy success st).2.1.1 ≤
        (send_tap dx dy success st).1.1 + st.jitter ∧
    (send_tap dx dy success st).1.2.1 - st.jitter ≤
        (send_tap dx dy success st).2.1.2 ∧
    (send_tap dx dy success st).2.1.2 ≤
        (send_tap dx dy success st).1.2.1 + st.jitter := by
  unfold send_tap add_jitter
  refine ⟨?_, ?_, ?_, ?_⟩ <;> simp <;> omega

/-- C7, witness: concrete samples 5 and -3 within the jitter radius 8 of
`stSingle`. -/
theorem jitter_within_bounds_witness :
    -stSingle.jitter ≤ (5 : ℤ) ∧ (5 : ℤ) ≤ stSingle.jitter ∧
    -stSingle.jitter ≤ (-3 : ℤ) ∧ (-3 : ℤ) ≤ stSingle.jitter ∧
    ((send_tap 5 (-3) true stSingle).1.1 - stSingle.jitter ≤
        (send_tap 5 (-3) true stSingle).2.1.1 ∧
      (send_tap 5 (-3) true stSingle).2.1.1 ≤
        (send_tap 5 (-3) true stSingle).1.1 + stSingle.jitter ∧
      (send_tap 5 (-3) true stSingle).1.2.1 - stSingle.jitter ≤
        (send_tap 5 (-3) true stSingle).2.1.2 ∧
      (send_tap 5 (-3) true stSingle).2.1.2 ≤
        (send_tap 5 (-3) true stSingle).1.2.1 + stSingle.jitter) :=
  ⟨by decide, by decide, by decide, by decide,
   jitter_within_bounds stSingle 5 (-3) true (by decide) (by decide)
     (by decide) (by decide)⟩

/-- C8: the ETA formatter maps `seconds_remaining` to a human bucket with
floor division: above 86400 to a days/hours string, above 3600 to an
hours/minutes string, and everything else to a minutes/seconds string; in
particular 100 s formats as "1m 40s", 90000 s as "1d 1h", 5400 s as
"1h 30m". -/
theorem eta_formatting :
    format_time_remaining 100 = "1m 40s" ∧
    format_time_remaining 90000 = "1d 1h" ∧
    format_time_remaining 5400 = "1h 30m" ∧
    (∀ s : ℚ, 86400 < s →
      format_time_remaining s =
        s!"{pyInt (pyFloorDiv s 86400)}d {pyInt (pyFloorDiv (pyMod s 86400) 3600)}h") ∧
    (∀ s : ℚ, ¬ 86400 < s → 3600 < s →
      format_time_remaining s =
        s!"{pyInt (pyFloorDiv s 3600)}h {pyInt (pyFloorDiv (pyMod s 3600) 60)}m") ∧
    (∀ s : ℚ, ¬ 86400 < s → ¬ 3600 < s →
      format_time_remaining s =
        s!"{pyInt (pyFloorDiv s 60)}m {pyInt (pyMod s 60)}s") := by
  refine ⟨by with_unfolding_all decide, by with_unfolding_all decide,
    by with_unfolding_all decide, ?_, ?_, ?_⟩
  · intro s h1
    unfold format_time_remaining
    rw [if_pos h1]
  · intro s h1 h2
    unfold format_time_remaining
    rw [if_neg h1, if_pos h2]
  · intro s h1 h2
    unfold format_time_remaining
    rw [if_neg h1, if_neg h2]

/-- C1: the loop body of `start` fetches a point for the pacing interval and
then `send_tap` fetches a second point which is the one actually tapped, so
the pacing delay does not equal the tapped point's interval.  Evaluated at
the concrete state built by `AutoTapper(multi_tap=True)` on a 1080x2400
device (whose plan is the nine-point layout): the first cycle sleeps the
interval of plan[0] (0.008 s) while tapping plan[1] (interval 0.009 s). -/
theorem pacing_interval_mismatch :
    ((initTapper none none (8/1000) 8 true none rng0 (some (1080, 2400))).map
        fun st => ((dispatch_cycle 0 0 true st).1,
          (dispatch_cycle 0 0 true st).2.1.2.2)) =
      .ok ((8/1000 : ℚ), (9/1000 : ℚ)) ∧
    (8/1000 : ℚ) ≠ (9/1000 : ℚ) := by
  constructor
  · rfl
  · with_unfolding_all decide

/-- C4: when both coordinates are supplied to the constructor, the
resolution query is skipped and no plan is built: `tap_locations` stays
empty, every dispatch returns the fixed `(x, y)` with the base
`tap_interval` and leaves the state unchanged — even when multi-tap mode is
enabled; and the calibrated path of `main` resolves both coordinates from
the screen resolution before constructing the tapper, so it lands in
exactly this case. -/
theorem explicit_coords_empty_plan (x y : ℤ) (ti : ℚ) (j : ℤ) (mt : Bool)
    (tt : Option ℕ) (rng : Rng) (res : Option (ℤ × ℤ)) :
    (∃ st, initTapper (some x) (some y) ti j mt tt rng res = .ok st ∧
      st.multi_tap = mt ∧ st.tap_locations = [] ∧
      get_next_tap_location st = ((x, y, ti), st) ∧
      ∀ n, advance_state^[n] st = st) ∧
    (∀ w h : ℤ, main_coords (some (w, h)) none none true =
      (some (pyDiv w 2), some (pyInt ((h : ℚ) * (6/10))))) := by
  constructor
  · refine ⟨_, rfl, rfl, rfl, ?_, ?_⟩
    · unfold get_next_tap_location
      rw [if_pos (Or.inr rfl)]
      rfl
    · intro n
      refine Function.iterate_fixed ?_ n
      unfold advance_state get_next_tap_location
      rw [if_pos (Or.inr rfl)]
  · intro w h
    rfl

/-- C5, counterexample: on a 1080x2400 device, supplying an explicit center
(100, 200) — which differs from the auto-detected heuristic center — yields
an *empty* plan, not the nine-point layout; while supplying *no* explicit
center yields exactly the nine-point layout (around the defaulted center
`(width // 2, height // 2)`): the fallback layout is used precisely in the
non-explicit case, contradicting the claim. -/
theorem nine_point_fallback_cex :
    ((initTapper (some 100) (some 200) (8/1000) 8 true none rng0
        (some (1080, 2400))).map fun st => st.tap_locations) = .ok [] ∧
    ((initTapper none none (8/1000) 8 true none rng0
        (some (1080, 2400))).map fun st => st.tap_locations) =
      .ok (nine_point_layout (pyDiv 1080 2) (pyDiv 2400 2)
        (pyInt ((2400 : ℚ) * (2/10)))) ∧
    nine_point_layout (pyDiv 1080 2) (pyDiv 2400 2)
      (pyInt ((2400 : ℚ) * (2/10))) ≠ [] ∧
    pyDiv 1080 2 = 540 ∧ pyDiv 2400 2 = 1200 ∧
    pyInt ((2400 : ℚ) * (2/10)) = 480 ∧
    ((100 : ℤ), (200 : ℤ)) ≠ (pyDiv 1080 2, pyInt ((2400 : ℚ) * (6/10))) := by
  refine ⟨rfl, rfl, by decide, by decide, by decide,
    by with_unfolding_all decide, by with_unfolding_all decide⟩

/-- C5, amended: in multi-tap mode the nine-point cross/diagonal layout
replaces the generated ring plan exactly when the constructor had to query
the screen resolution (at least one coordinate missing), and it is built
around the possibly-defaulted `(self.x, self.y)`; when the caller supplies
both coordinates explicitly, no plan is generated at all. -/
theorem nine_point_fallback_characterization (x0 y0 : Option ℤ) (ti : ℚ)
    (j : ℤ) (tt : Option ℕ) (rng : Rng) (w h : ℤ)
    (hs : ∀ l, (rng.shuffle l).length = l.length)
    (hmiss : (x0.isNone || y0.isNone) = true) :
    ((initTapper x0 y0 ti j true tt rng (some (w, h))).map
        fun st => st.tap_locations) =
      .ok (nine_point_layout (x0.getD (pyDiv w 2)) (y0.getD (pyDiv h 2))
        (pyInt ((h : ℚ) * (2/10)))) ∧
    (∀ x y : ℤ, ((initTapper (some x) (some y) ti j true tt rng
        (some (w, h))).map fun st => st.tap_locations) = .ok []) := by
  constructor
  · have hne := generate_tap_locations_ne_nil rng w h hs
    unfold initTapper
    rw [if_pos hmiss]
    simp [hne, Except.map]
  · intro x y
    rfl

/-- C5, witness: the characterization applied with no explicit coordinates
on a 1080x2400 device with the identity shuffle. -/
theorem nine_point_fallback_characterization_witness :
    (∀ l, (rng0.shuffle l).length = l.length) ∧
    (((none : Option ℤ).isNone || (none : Option ℤ).isNone) = true) ∧
    ((initTapper none none (8/1000) 8 true none rng0
        (some (1080, 2400))).map fun st => st.tap_locations) =
      .ok (nine_point_layout ((none : Option ℤ).getD (pyDiv 1080 2))
        ((none : Option ℤ).getD (pyDiv 2400 2))
        (pyInt ((2400 : ℚ) * (2/10)))) :=
  ⟨fun _ => rfl, rfl,
   (nine_point_fallback_characterization none none (8/1000) 8 none rng0
      1080 2400 (fun _ => rfl) rfl).1⟩

/-- C10, counterexample: with the device check reporting no device, `start`
returns at once — zero cycles, counter untouched, no summary — and the
process ends with exit status 0, not with a non-zero failure signal. -/
theorem device_check_failure_exit_cex :
    (start false (fun _ => true) (fun _ => (0, 0)) 100 stSingle).exit_code
        = 0 ∧
    (start false (fun _ => true) (fun _ => (0, 0)) 100 stSingle).cycles = 0 ∧
    (start false (fun _ => true) (fun _ => (0, 0)) 100
        stSingle).summary_printed = false ∧
    (start false (fun _ => true) (fun _ => (0, 0)) 100
        stSingle).finalState.tap_count = 0 :=
  ⟨rfl, rfl, rfl, rfl⟩

/-- C10, amended: if the connected-device check returns false the run never
begins — no cycle runs, no plan point is consumed, `tap_count` is untouched
and the summary report is not printed — but the process then ends normally
(exit status 0); only the resolution-query failure path terminates with the
non-zero exit status 1. -/
theorem device_check_aborts_run (success : ℕ → Bool) (jit : ℕ → ℤ × ℤ)
    (fuel : ℕ) (st : TapperState) :
    start false success jit fuel st =
      { finalState := st, cycles := 0, summary_printed := false,
        exit_code := 0 } ∧
    (∀ (ti : ℚ) (j : ℤ) (mt : Bool) (tt : Option ℕ) (rng : Rng),
      initTapper none none ti j mt tt rng none = .error 1) :=
  ⟨rfl, fun _ _ _ _ _ => rfl⟩

/-- C8, witness: the days/hours bucket applied at the concrete value
200000 s. -/
theorem eta_formatting_witness :
    (86400 : ℚ) < 200000 ∧ format_time_remaining 200000 = "2d 7h" := by
  refine ⟨by norm_num, ?_⟩
  rw [eta_formatting.2.2.2.1 200000 (by norm_num)]
  with_unfolding_all decide

lemma start_loop_succ_true (jit : ℕ → ℤ × ℤ) (n k : ℕ)
    (st : TapperState) :
    start_loop (fun _ => true) jit (n + 1) k st =
      (if goal_reached ((send_tap (jit k).1 (jit k).2 true
          (if st.multi_tap = true then (get_next_tap_location st).2
           else st)).2.2) = true then
        (((send_tap (jit k).1 (jit k).2 true
          (if st.multi_tap = true then (get_next_tap_location st).2
           else st)).2.2), 1, StopReason.goalReached)
      else
        ((start_loop (fun _ => true) jit n (k + 1) ((send_tap (jit k).1
            (jit k).2 true (if st.multi_tap = true
              then (get_next_tap_location st).2 else st)).2.2)).1,
         (start_loop (fun _ => true) jit n (k + 1) ((send_tap (jit k).1
            (jit k).2 true (if st.multi_tap = true
              then (get_next_tap_location st).2 else st)).2.2)).2.1 + 1,
         (start_loop (fun _ => true) jit n (k + 1) ((send_tap (jit k).1
            (jit k).2 true (if st.multi_tap = true
              then (get_next_tap_location st).2 else st)).2.2)).2.2)) :=
  rfl

lemma start_loop_all_success (jit : ℕ → ℤ × ℤ) :
    ∀ (fuel k : ℕ) (st : TapperState) (g : ℕ),
      st.total_taps = some g → st.tap_count < g → g - st.tap_count ≤ fuel →
      (start_loop (fun _ => true) jit fuel k st).1.tap_count = g ∧
      (start_loop (fun _ => true) jit fuel k st).1.total_taps = some g ∧
      (start_loop (fun _ => true) jit fuel k st).2.1 = g - st.tap_count ∧
      (start_loop (fun _ => true) jit fuel k st).2.2 =
        StopReason.goalReached := by
  intro fuel
  induction fuel with
  | zero => intro k st g h1 h2 h3; omega
  | succ n ih =>
    intro k st g h1 h2 h3
    have hcnt : ((send_tap (jit k).1 (jit k).2 true
        (if st.multi_tap = true then (get_next_tap_location st).2
         else st)).2.2).tap_count = st.tap_count + 1 := by
      by_cases hm : st.multi_tap = true <;>
        simp [hm, send_tap_tap_count_true, get_next_tap_location_tap_count]
    have htot : ((send_tap (jit k).1 (jit k).2 true
        (if st.multi_tap = true then (get_next_tap_location st).2
         else st)).2.2).total_taps = some g := by
      by_cases hm : st.multi_tap = true <;>
        simp [hm, send_tap_total_taps, get_next_tap_location_total_taps, h1]
    rw [start_loop_succ_true]
    generalize hst2 : (send_tap (jit k).1 (jit k).2 true
        (if st.multi_tap = true then (get_next_tap_location st).2
         else st)).2.2 = st2 at *
    by_cases hg : goal_reached st2 = true
    · rw [if_pos hg]
      unfold goal_reached at hg
      rw [htot] at hg
      simp only [Bool.and_eq_true, decide_eq_true_eq] at hg
      refine ⟨?_, htot, ?_, rfl⟩
      · show st2.tap_count = g
        omega
      · show (1 : ℕ) = g - st.tap_count
        omega
    · rw [if_neg hg]
      unfold goal_reached at hg
      rw [htot] at hg
      simp only [Bool.and_eq_true, decide_eq_true_eq, not_and, not_le,
        ne_eq, not_not] at hg
      have hlt : st2.tap_count < g := by
        rcases Nat.lt_or_ge st2.tap_count g with h | h
        · exact h
        · omega
      obtain ⟨a, b, c, d⟩ := ih (k + 1) st2 g htot hlt (by omega)
      refine ⟨a, b, ?_, d⟩
      show (start_loop (fun _ => true) jit n (k + 1) st2).2.1 + 1 =
        g - st.tap_count
      omega

/-- C6: with a configured positive goal and every tap invocation succeeding,
the scheduler runs exactly `goal` cycles — once `tap_count` reaches the goal
no further cycle runs — the loop exits through the goal check (the
`Completed` outcome), the final `tap_count` equals the goal, and the
reported completion percentage is 100. -/
theorem goal_completion (jit : ℕ → ℤ × ℤ) (st : TapperState) (g fuel : ℕ)
    (h1 : st.total_taps = some g) (h2 : st.tap_count = 0) (h3 : 0 < g)
    (h4 : g ≤ fuel) :
    (start_loop (fun _ => true) jit fuel 0 st).1.tap_count = g ∧
    (start_loop (fun _ => true) jit fuel 0 st).2.1 = g ∧
    (start_loop (fun _ => true) jit fuel 0 st).2.2 =
      StopReason.goalReached ∧
    completion_percentage (start_loop (fun _ => true) jit fuel 0 st).1
      = 100 := by
  obtain ⟨a, b, c, d⟩ := start_loop_all_success jit fuel 0 st g h1
    (by omega) (by omega)
  refine ⟨a, by omega, d, ?_⟩
  unfold completion_percentage
  rw [b, a]
  show ((g : ℚ) / (g : ℚ)) * 100 = 100
  rw [div_self (by exact_mod_cast h3.ne' : (g : ℚ) ≠ 0), one_mul]

/-- C6, witness: goal 50, fuel 50, all taps succeeding, starting from the
freshly reset single-point state. -/
theorem goal_completion_witness :
    (start_loop (fun _ => true) (fun _ => (0, 0)) 50 0 stSingle).1.tap_count
        = 50 ∧
    (start_loop (fun _ => true) (fun _ => (0, 0)) 50 0 stSingle).2.1 = 50 ∧
    (start_loop (fun _ => true) (fun _ => (0, 0)) 50 0 stSingle).2.2 =
      StopReason.goalReached ∧
    completion_percentage
      (start_loop (fun _ => true) (fun _ => (0, 0)) 50 0 stSingle).1
        = 100 :=
  goal_completion (fun _ => (0, 0)) stSingle 50 50 rfl rfl
    (by decide) (by decide)

lemma advance_state_multi (st : TapperState) (hm : st.multi_tap = true)
    (hne : st.tap_locations ≠ []) :
    advance_state st = { st with current_location_index :=
      (st.current_location_index + 1) % st.tap_locations.length } := by
  unfold advance_state get_next_tap_location
  rw [if_neg (by simp [hm, hne])]

lemma advance_state_iterate (st : TapperState) (hm : st.multi_tap = true)
    (hne : st.tap_locations ≠ [])
    (hi : st.current_location_index < st.tap_locations.length) :
    ∀ k : ℕ, (advance_state^[k] st).multi_tap = true ∧
      (advance_state^[k] st).tap_locations = st.tap_locations ∧
      (advance_state^[k] st).current_location_index =
        (st.current_location_index + k) % st.tap_locations.length := by
  intro k
  induction k with
  | zero =>
    refine ⟨hm, rfl, ?_⟩
    rw [Nat.add_zero, Nat.mod_eq_of_lt hi]
    rfl
  | succ k ih =>
    obtain ⟨ihm, ihl, ihc⟩ := ih
    rw [Function.iterate_succ_apply',
      advance_state_multi _ ihm (ihl ▸ hne)]
    refine ⟨ihm, ihl, ?_⟩
    simp only [ihl, ihc]
    rw [Nat.mod_add_mod, Nat.add_assoc]

/-- C9: in multi-point mode with a non-empty plan, the cursor advances
modulo the plan length on every dispatch, and after exactly `len(plan)`
dispatches with no plan mutation it returns to its starting index. -/
theorem cursor_cyclic (st : TapperState) (hm : st.multi_tap = true)
    (hne : st.tap_locations ≠ [])
    (hi : st.current_location_index < st.tap_locations.length) :
    (advance_state^[st.tap_locations.length] st).current_location_index =
      st.current_location_index ∧
    (∀ k : ℕ, (advance_state^[k] st).current_location_index =
      (st.current_location_index + k) % st.tap_locations.length) := by
  have h := advance_state_iterate st hm hne hi
  refine ⟨?_, fun k => (h k).2.2⟩
  rw [(h st.tap_locations.length).2.2, Nat.add_mod_right,
    Nat.mod_eq_of_lt hi]

/-- C9, witness: the nine-point plan state with the cursor at 3 returns to 3
after 9 dispatches. -/
theorem cursor_cyclic_witness :
    (advance_state^[stNine.tap_locations.length] stNine).current_location_index
      = stNine.current_location_index :=
  (cursor_cyclic stNine rfl (by decide) (by decide)).1

end KaraFelhun
